import Mathlib

/-!
# Energy tracker (`module.go`): shallow embedding and verified properties

The Go package `powerusagetracker` wraps an upstream power sensor and integrates
its instantaneous power and current readings over wall-clock time.

Modelling conventions.

* `float64` quantities are exact rationals (`ℚ`); NaN, infinities and rounding
  are outside the model.
* `time.Time` is an integer count of nanoseconds, `Time.Sub` is the exact
  difference and `Duration.Hours` divides by `3.6e12`.
* The upstream sensor is an external collaborator: the values it returns on a
  call are arguments of the operation that makes the call.
* Every access to the three shared fields and every `mu.Lock` / `mu.Unlock` is
  recorded, in program order, in a ghost trace carried next to the tracker.
* A Go `map[string]interface{}` is `Option (List (String × Value))`: `none` is the
  nil map, reads of which succeed and writes to which panic.
-/

namespace PowerUsageTracker

/-! ## Values, maps, errors -/

/-- Dynamic values stored behind `interface{}`. -/
inductive Value where
  | bool (b : Bool)
  | str (s : String)
  | float (q : ℚ)
  | int (i : Int)
  | null
  deriving DecidableEq, Repr

/-- Go `error` values produced or forwarded by the package. -/
inductive Err where
  | dependencyNotFound (dep : String)
  | dependencyType (dep : String)
  | errorf (msg : String)
  | upstream (msg : String)
  deriving DecidableEq, Repr

/-- Entries of a non-nil Go map, most recent binding of a key first. -/
abbrev Entries := List (String × Value)

/-- Go `map[string]interface{}`; `none` is the nil map. -/
abbrev GoMap := Option Entries

/-- Lookup in the entries of a map. -/
def Entries.find (k : String) : Entries → Option Value
  | [] => none
  | (k', v) :: rest => if k = k' then some v else Entries.find k rest

/-- Go `v, ok := m[k]`; a nil map has no keys. -/
def GoMap.index (m : GoMap) (k : String) : Option Value :=
  match m with
  | none => none
  | some es => Entries.find k es

/-- Go key set of a map, as a predicate on keys. -/
def GoMap.hasKey (m : GoMap) (k : String) : Bool :=
  (GoMap.index m k).isSome

/-- Result of running a statement sequence that may panic. -/
inductive Outcome (α : Type) where
  | ret (a : α)
  | panicked (msg : String)
  deriving DecidableEq, Repr

/-- Go `m[k] = v`: replaces the binding of `k`; panics on a nil map. -/
def GoMap.assign (m : GoMap) (k : String) (v : Value) : Outcome GoMap :=
  match m with
  | none => Outcome.panicked "assignment to entry in nil map"
  | some es => Outcome.ret (some ((k, v) :: es.filter (fun e => decide (e.1 ≠ k))))

/-! ## Time -/

/-- Wall-clock instant, in nanoseconds. -/
abbrev Time := Int

/-- Go `Time.Sub`, a `Duration` in nanoseconds. -/
def Sub (t u : Time) : Int := t - u

/-- Go `Duration.Hours`. -/
def Hours (d : Int) : ℚ := (d : ℚ) / 3600000000000

/-! ## Configuration -/

/-- Go `Config`. -/
structure Config where
  RefreshRateMSec : Int
  SourceSensor : String
  deriving DecidableEq, Repr

/-- Go `(*Config).Validate`: returns the implicit dependencies and an error. -/
def Config.Validate (cfg : Config) (_path : String) : List String × Option Err :=
  ([cfg.SourceSensor], none)

/-! ## Tracker state and ghost trace -/

/-- Go `energyTracker`, restricted to the fields that carry data. -/
structure Tracker where
  name : String
  sourceSensor : String
  refreshRateMSec : Int
  lastReadingTime : Time
  totalEnergyWh : ℚ
  totalCurrentAh : ℚ
  deriving DecidableEq, Repr

/-- The three fields shared between the sampling goroutine and foreground calls. -/
inductive Field where
  | totalEnergyWh
  | totalCurrentAh
  | lastReadingTime
  deriving DecidableEq, Repr

/-- One step touching the mutex or a shared field. -/
inductive Access where
  | lock
  | unlock
  | read (f : Field)
  | write (f : Field)
  deriving DecidableEq, Repr

/-- Tracker together with the ghost trace of accesses performed so far. -/
structure Exec where
  tracker : Tracker
  trace : List Access
  deriving DecidableEq, Repr

/-- Go `s.mu.Lock()`. -/
def muLock (x : Exec) : Exec :=
  { x with trace := x.trace ++ [Access.lock] }

/-- Go `s.mu.Unlock()`. -/
def muUnlock (x : Exec) : Exec :=
  { x with trace := x.trace ++ [Access.unlock] }

/-- Read of `s.lastReadingTime`. -/
def getLastReadingTime (x : Exec) : Time × Exec :=
  (x.tracker.lastReadingTime, { x with trace := x.trace ++ [Access.read Field.lastReadingTime] })

/-- Read of `s.totalEnergyWh`. -/
def getTotalEnergyWh (x : Exec) : ℚ × Exec :=
  (x.tracker.totalEnergyWh, { x with trace := x.trace ++ [Access.read Field.totalEnergyWh] })

/-- Read of `s.totalCurrentAh`. -/
def getTotalCurrentAh (x : Exec) : ℚ × Exec :=
  (x.tracker.totalCurrentAh, { x with trace := x.trace ++ [Access.read Field.totalCurrentAh] })

/-- Write of `s.lastReadingTime`. -/
def setLastReadingTime (v : Time) (x : Exec) : Exec :=
  { tracker := { x.tracker with lastReadingTime := v },
    trace := x.trace ++ [Access.write Field.lastReadingTime] }

/-- Write of `s.totalEnergyWh`. -/
def setTotalEnergyWh (v : ℚ) (x : Exec) : Exec :=
  { tracker := { x.tracker with totalEnergyWh := v },
    trace := x.trace ++ [Access.write Field.totalEnergyWh] }

/-- Write of `s.totalCurrentAh`. -/
def setTotalCurrentAh (v : ℚ) (x : Exec) : Exec :=
  { tracker := { x.tracker with totalCurrentAh := v },
    trace := x.trace ++ [Access.write Field.totalCurrentAh] }

/-- Lock discipline on a trace: starting with the mutex held or not (`held`),
every read and write happens while it is held. -/
def guardedFrom : Bool → List Access → Bool
  | _, [] => true
  | _, Access.lock :: rest => guardedFrom true rest
  | _, Access.unlock :: rest => guardedFrom false rest
  | held, Access.read _ :: rest => held && guardedFrom held rest
  | held, Access.write _ :: rest => held && guardedFrom held rest

/-! ## Construction -/

/-- A resolved dependency: a power sensor or a resource of another kind. -/
inductive Resource where
  | powerSensor (id : String)
  | other (id : String)
  deriving DecidableEq, Repr

/-- Go `resource.Dependencies`, keyed by the power-sensor resource name. -/
abbrev Dependencies := List (String × Resource)

/-- Go `deps.Lookup(depSensorName)`. -/
def Dependencies.Lookup (deps : Dependencies) (depSensorName : String) : Option Resource :=
  match deps with
  | [] => none
  | (n, r) :: rest => if depSensorName = n then some r else Dependencies.Lookup rest depSensorName

/-- Go type assertion `sourceSensor.(powersensor.PowerSensor)`. -/
def Resource.asPowerSensor : Resource → Option String
  | Resource.powerSensor id => some id
  | Resource.other _ => none

/-- Go `NewEnergyTracker`. `now` is the value of `time.Now()` at construction.
The second component is the `Config` behind the `conf` pointer after the call. -/
def NewEnergyTracker (deps : Dependencies) (name : String) (conf : Config) (now : Time) :
    Except Err Tracker × Config :=
  let depSensorName := conf.SourceSensor
  match Dependencies.Lookup deps depSensorName with
  | none => (Except.error (Err.dependencyNotFound depSensorName), conf)
  | some sourceSensor =>
    match Resource.asPowerSensor sourceSensor with
    | none => (Except.error (Err.dependencyType depSensorName), conf)
    | some sourceSensorPS =>
      if conf.RefreshRateMSec < 0 then
        (Except.error (Err.errorf "refresh_rate_msec must be greater than 0"), conf)
      else
        let conf1 : Config :=
          if conf.RefreshRateMSec = 0 then { conf with RefreshRateMSec := 2000 } else conf
        (Except.ok
          { name := name
            sourceSensor := sourceSensorPS
            refreshRateMSec := conf1.RefreshRateMSec
            lastReadingTime := now
            totalEnergyWh := 0
            totalCurrentAh := 0 },
         conf1)

/-! ## Sampling tick -/

/-- One iteration of the sampling goroutine after the ticker fires.
`cur` is what `s.sourceSensor.Current` returns, `pow` what `s.sourceSensor.Power`
returns (consulted only when `Current` succeeded), `now` the value of `time.Now()`. -/
def tick (cur : ℚ × Bool × Option Err) (pow : ℚ × Option Err) (now : Time) (x : Exec) : Exec :=
  match cur.2.2 with
  | some _ => x
  | none =>
    match pow.2 with
    | some _ => x
    | none =>
      let current := cur.1
      let power := pow.1
      let r0 := getLastReadingTime x
      let elapsedHours := Hours (Sub now r0.1)
      let x1 := muLock r0.2
      let r1 := getTotalEnergyWh x1
      let x2 := setTotalEnergyWh (r1.1 + power * elapsedHours) r1.2
      let r2 := getTotalCurrentAh x2
      let x3 := setTotalCurrentAh (r2.1 + current * elapsedHours) r2.2
      let x4 := setLastReadingTime now x3
      muUnlock x4

/-! ## Foreground operations -/

/-- Go `(*energyTracker).Readings`. `up` is what `s.sourceSensor.Readings` returns. -/
def Readings (up : GoMap × Option Err) (x : Exec) : Outcome (GoMap × Option Err) × Exec :=
  match up.2 with
  | some err => (Outcome.ret (none, some err), x)
  | none =>
    let readings := up.1
    let r1 := getTotalEnergyWh x
    match GoMap.assign readings "total_energy_Wh" (Value.float r1.1) with
    | Outcome.panicked msg => (Outcome.panicked msg, r1.2)
    | Outcome.ret readings1 =>
      let r2 := getTotalCurrentAh r1.2
      match GoMap.assign readings1 "total_current_Ah" (Value.float r2.1) with
      | Outcome.panicked msg => (Outcome.panicked msg, r2.2)
      | Outcome.ret readings2 => (Outcome.ret (readings2, none), r2.2)

/-- Go `(*energyTracker).DoCommand`. `now` is the value of `time.Now()`. -/
def DoCommand (cmd : GoMap) (now : Time) (x : Exec) : (GoMap × Option Err) × Exec :=
  match GoMap.index cmd "reset" with
  | some (Value.bool true) =>
    let x1 := muLock x
    let x2 := setTotalEnergyWh 0 x1
    let x3 := setTotalCurrentAh 0 x2
    let x4 := setLastReadingTime now x3
    let x5 := muUnlock x4
    ((some [("status", Value.str "success")], none), x5)
  | _ => ((none, none), x)

/-! ## Sequences of operations -/

/-- A successful sample: the instant of the tick and what the upstream sensor reported. -/
structure Sample where
  time : Time
  power : ℚ
  current : ℚ
  isAC : Bool
  deriving DecidableEq, Repr

/-- The sampling tick in which both upstream calls succeed with the sample's values. -/
def Sample.apply (s : Sample) (x : Exec) : Exec :=
  tick (s.current, s.isAC, none) (s.power, none) s.time x

/-- Consecutive successful ticks. -/
def runTicks (x : Exec) (samples : List Sample) : Exec :=
  samples.foldl (fun acc s => Sample.apply s acc) x

/-- Specification side of the integration: the sum of `pᵢ * hᵢ`, where `hᵢ` is
the gap in hours between sample `i` and the previous instant (`t0` for the first). -/
def specEnergyWh : Time → List Sample → ℚ
  | _, [] => 0
  | t0, s :: rest => s.power * (((s.time - t0 : Int) : ℚ) / 3600000000000) + specEnergyWh s.time rest

/-- Specification side of the integration: the sum of `cᵢ * hᵢ`. -/
def specCurrentAh : Time → List Sample → ℚ
  | _, [] => 0
  | t0, s :: rest => s.current * (((s.time - t0 : Int) : ℚ) / 3600000000000) + specCurrentAh s.time rest

/-- Instant of the last sample, `t0` when there is none. -/
def specLastTime : Time → List Sample → Time
  | t0, [] => t0
  | _, s :: rest => specLastTime s.time rest

/-! ## Steps of a tick and of a reset

The sampling goroutine and a foreground `DoCommand` run concurrently. A tick
touches the shared fields in two separate steps, the read of `lastReadingTime`
made before `s.mu.Lock()` and the update made under the mutex; a reset holds the
mutex from its first write to its last. -/

/-- What the goroutine holds once both upstream calls succeeded and
`now := time.Now()` has been evaluated. -/
structure Pending where
  current : ℚ
  power : ℚ
  now : Time
  deriving DecidableEq, Repr

/-- Tick, first step: the two upstream calls and `now := time.Now()`; `none` when
a call failed and the tick is skipped. No shared field is touched. -/
def tickSample (cur : ℚ × Bool × Option Err) (pow : ℚ × Option Err) (now : Time) :
    Option Pending :=
  match cur.2.2 with
  | some _ => none
  | none =>
    match pow.2 with
    | some _ => none
    | none => some { current := cur.1, power := pow.1, now := now }

/-- Tick, second step: `elapsedHours := now.Sub(s.lastReadingTime).Hours()`,
evaluated before the mutex is taken. -/
def tickElapsed (p : Pending) (x : Exec) : ℚ × Exec :=
  let r0 := getLastReadingTime x
  (Hours (Sub p.now r0.1), r0.2)

/-- Tick, third step: the update between `s.mu.Lock()` and `s.mu.Unlock()`. -/
def tickUpdate (p : Pending) (elapsedHours : ℚ) (x : Exec) : Exec :=
  let x1 := muLock x
  let r1 := getTotalEnergyWh x1
  let x2 := setTotalEnergyWh (r1.1 + p.power * elapsedHours) r1.2
  let r2 := getTotalCurrentAh x2
  let x3 := setTotalCurrentAh (r2.1 + p.current * elapsedHours) r2.2
  let x4 := setLastReadingTime p.now x3
  muUnlock x4

/-- Reset, first step: `s.mu.Lock()` and the two zero writes; the mutex stays held. -/
def resetZero (x : Exec) : Exec :=
  let x1 := muLock x
  let x2 := setTotalEnergyWh 0 x1
  setTotalCurrentAh 0 x2

/-- Reset, second step: the store of `time.Now()` into `lastReadingTime` and
`s.mu.Unlock()`. -/
def resetStamp (now : Time) (x : Exec) : Exec :=
  let x4 := setLastReadingTime now x
  muUnlock x4

/-- Mutual exclusion on a trace: `Lock` is only taken while the mutex is free and
`Unlock` only while it is held (`held` is the state at the start). -/
def mutexOk : Bool → List Access → Bool
  | _, [] => true
  | held, Access.lock :: rest => !held && mutexOk true rest
  | held, Access.unlock :: rest => held && mutexOk false rest
  | held, Access.read _ :: rest => mutexOk held rest
  | held, Access.write _ :: rest => mutexOk held rest

/-- A reset overlapping a tick. The reset takes the mutex, zeroes both totals and
evaluates `time.Now()` to `r`; the goroutine, holding `p` (its own `time.Now()`
came later), reads `lastReadingTime`; the reset stores `r` and releases the mutex;
the tick takes the mutex and updates. -/
def resetOverlappingTick (r : Time) (p : Pending) (x : Exec) : Exec :=
  let x1 := resetZero x
  let e := tickElapsed p x1
  let x2 := resetStamp r e.2
  tickUpdate p e.1 x2

/-- A reset falling inside a tick. The goroutine has evaluated `time.Now()` and
holds `p`; a whole reset, whose `time.Now()` gives `r`, runs; the tick then reads
`lastReadingTime`, takes the mutex and updates. -/
def resetInsideTick (p : Pending) (r : Time) (x : Exec) : Exec :=
  let y := (DoCommand (some [("reset", Value.bool true)]) r x).2
  let e := tickElapsed p y
  tickUpdate p e.1 e.2

/-! ## Concrete values used to exercise the statements -/

/-- A dependency set in which `"src"` is a power sensor and `"cam"` is not. -/
def exampleDeps : Dependencies :=
  [("cam", Resource.other "cam"), ("src", Resource.powerSensor "src")]

/-- The tracker `NewEnergyTracker` builds at instant `0` from `exampleDeps`
and a one-second refresh rate. -/
def exampleTracker : Tracker :=
  { name := "tracker", sourceSensor := "src", refreshRateMSec := 1000,
    lastReadingTime := 0, totalEnergyWh := 0, totalCurrentAh := 0 }

/-- Two samples, one and two hours after instant `0`. -/
def exampleSamples : List Sample :=
  [{ time := 3600000000000, power := 10, current := 2, isAC := false },
   { time := 7200000000000, power := 20, current := 3, isAC := true }]

/-- A tracker that has already accumulated energy and charge. -/
def exampleUsed : Exec :=
  { tracker := { name := "tracker", sourceSensor := "src", refreshRateMSec := 1000,
                 lastReadingTime := 3600000000000, totalEnergyWh := 10, totalCurrentAh := 2 },
    trace := [] }

/-! ## Basic facts about the embedding -/

theorem tick_ok_tracker (c p : ℚ) (ac : Bool) (now : Time) (x : Exec) :
    (tick (c, ac, none) (p, none) now x).tracker =
      { x.tracker with
        totalEnergyWh := x.tracker.totalEnergyWh + p * Hours (Sub now x.tracker.lastReadingTime)
        totalCurrentAh := x.tracker.totalCurrentAh + c * Hours (Sub now x.tracker.lastReadingTime)
        lastReadingTime := now } := rfl

theorem tick_ok_trace (c p : ℚ) (ac : Bool) (now : Time) (x : Exec) :
    (tick (c, ac, none) (p, none) now x).trace =
      x.trace ++ [Access.read Field.lastReadingTime, Access.lock,
        Access.read Field.totalEnergyWh, Access.write Field.totalEnergyWh,
        Access.read Field.totalCurrentAh, Access.write Field.totalCurrentAh,
        Access.write Field.lastReadingTime, Access.unlock] := by
  simp [tick, getLastReadingTime, muLock, getTotalEnergyWh, setTotalEnergyWh,
    getTotalCurrentAh, setTotalCurrentAh, setLastReadingTime, muUnlock]

theorem runTicks_totals (samples : List Sample) (x : Exec) :
    (runTicks x samples).tracker.totalEnergyWh =
        x.tracker.totalEnergyWh + specEnergyWh x.tracker.lastReadingTime samples
      ∧ (runTicks x samples).tracker.totalCurrentAh =
        x.tracker.totalCurrentAh + specCurrentAh x.tracker.lastReadingTime samples
      ∧ (runTicks x samples).tracker.lastReadingTime =
        specLastTime x.tracker.lastReadingTime samples := by
  induction samples generalizing x with
  | nil => simp [runTicks, specEnergyWh, specCurrentAh, specLastTime]
  | cons s rest ih =>
    have h := ih (Sample.apply s x)
    simp only [runTicks, List.foldl_cons] at h ⊢
    refine ⟨?_, ?_, ?_⟩
    · rw [h.1]; simp only [Sample.apply, tick_ok_tracker, specEnergyWh, Hours, Sub]; ring
    · rw [h.2.1]; simp only [Sample.apply, tick_ok_tracker, specCurrentAh, Hours, Sub]; ring
    · rw [h.2.2]; simp only [Sample.apply, tick_ok_tracker, specLastTime]

theorem NewEnergyTracker_ok_fresh {deps : Dependencies} {name : String} {conf : Config}
    {t0 : Time} {tr : Tracker} (h : (NewEnergyTracker deps name conf t0).1 = Except.ok tr) :
    tr.totalEnergyWh = 0 ∧ tr.totalCurrentAh = 0 ∧ tr.lastReadingTime = t0 := by
  simp only [NewEnergyTracker] at h
  cases hL : Dependencies.Lookup deps conf.SourceSensor with
  | none => simp [hL] at h
  | some r =>
    cases hP : Resource.asPowerSensor r with
    | none => simp [hL, hP] at h
    | some ps =>
      by_cases hneg : conf.RefreshRateMSec < 0
      · simp [hL, hP, hneg] at h
      · simp only [hL, hP, hneg, if_false, Except.ok.injEq] at h
        subst h
        exact ⟨rfl, rfl, rfl⟩

theorem Entries.find_filter_ne {k k0 : String} (hk : k ≠ k0) (es : Entries) :
    Entries.find k (es.filter (fun e => decide (e.1 ≠ k0))) = Entries.find k es := by
  induction es with
  | nil => rfl
  | cons e rest ih =>
    obtain ⟨k1, v⟩ := e
    by_cases h1 : k1 = k0
    · have hk1 : k ≠ k1 := fun hc => hk (hc.trans h1)
      rw [List.filter_cons_of_neg (by simp [h1])]
      simp only [Entries.find, hk1, if_false]
      exact ih
    · rw [List.filter_cons_of_pos (by simp [h1])]
      simp only [Entries.find, ih]

theorem Entries.find_assign (k0 : String) (v : Value) (es : Entries) (k : String) :
    Entries.find k ((k0, v) :: es.filter (fun e => decide (e.1 ≠ k0)))
      = if k = k0 then some v else Entries.find k es := by
  by_cases hk : k = k0
  · simp [Entries.find, hk]
  · simp only [Entries.find, hk, if_false]
    exact Entries.find_filter_ne hk es

theorem tick_eq_steps (cur : ℚ × Bool × Option Err) (pow : ℚ × Option Err) (now : Time)
    (x : Exec) :
    tick cur pow now x =
      match tickSample cur pow now with
      | none => x
      | some p => tickUpdate p (tickElapsed p x).1 (tickElapsed p x).2 := by
  obtain ⟨c, ac, eo⟩ := cur
  obtain ⟨p, po⟩ := pow
  cases eo with
  | some e => rfl
  | none =>
    cases po with
    | some e => rfl
    | none => rfl

theorem DoCommand_reset_eq_steps (now : Time) (x : Exec) :
    (DoCommand (some [("reset", Value.bool true)]) now x).2 = resetStamp now (resetZero x) := by
  simp [DoCommand, GoMap.index, Entries.find, resetStamp, resetZero]

/-! ## Integration over successful ticks -/

/-- C1: starting from the tracker `NewEnergyTracker` returns at instant `t0` (both
totals zero, `lastReadingTime = t0`), after any sequence of successful ticks
`totalEnergyWh` is the sum of `pᵢ * hᵢ`, `totalCurrentAh` is the sum of `cᵢ * hᵢ`,
with `hᵢ` the gap to the previous instant in hours, and `lastReadingTime` is the
instant of the last tick. -/
theorem ticks_integrate_power_and_current (deps : Dependencies) (name : String) (conf : Config)
    (t0 : Time) (tr : Tracker) (samples : List Sample)
    (h : (NewEnergyTracker deps name conf t0).1 = Except.ok tr) :
    (runTicks { tracker := tr, trace := [] } samples).tracker.totalEnergyWh
        = specEnergyWh t0 samples
      ∧ (runTicks { tracker := tr, trace := [] } samples).tracker.totalCurrentAh
        = specCurrentAh t0 samples
      ∧ (runTicks { tracker := tr, trace := [] } samples).tracker.lastReadingTime
        = specLastTime t0 samples := by
  obtain ⟨hE, hA, hT⟩ := NewEnergyTracker_ok_fresh h
  have key := runTicks_totals samples { tracker := tr, trace := [] }
  simp only [hE, hA, hT, zero_add] at key
  exact key

/-- C1 at a concrete input: two samples, one and two hours after construction. -/
theorem ticks_integrate_power_and_current_witness :
    (NewEnergyTracker exampleDeps "tracker" { RefreshRateMSec := 1000, SourceSensor := "src" } 0).1
        = Except.ok exampleTracker
      ∧ (runTicks { tracker := exampleTracker, trace := [] } exampleSamples).tracker.totalEnergyWh
        = specEnergyWh 0 exampleSamples
      ∧ (runTicks { tracker := exampleTracker, trace := [] } exampleSamples).tracker.totalCurrentAh
        = specCurrentAh 0 exampleSamples
      ∧ (runTicks { tracker := exampleTracker, trace := [] } exampleSamples).tracker.lastReadingTime
        = specLastTime 0 exampleSamples :=
  ⟨by rfl,
   ticks_integrate_power_and_current exampleDeps "tracker"
     { RefreshRateMSec := 1000, SourceSensor := "src" } 0 exampleTracker exampleSamples
     (by rfl)⟩

/-! ## Failed ticks -/

/-- C2: a tick in which `Current` fails, or in which `Current` succeeds and `Power`
fails, leaves the tracker (both totals and `lastReadingTime`) exactly as it was,
and touches neither the mutex nor a shared field. -/
theorem failed_tick_leaves_state (x : Exec) (c p : ℚ) (ac : Bool) (e : Err)
    (pow : ℚ × Option Err) (now : Time) :
    tick (c, ac, some e) pow now x = x
      ∧ tick (c, ac, none) (p, some e) now x = x
      ∧ (tick (c, ac, some e) pow now x).tracker.totalEnergyWh = x.tracker.totalEnergyWh
      ∧ (tick (c, ac, some e) pow now x).tracker.totalCurrentAh = x.tracker.totalCurrentAh
      ∧ (tick (c, ac, some e) pow now x).tracker.lastReadingTime = x.tracker.lastReadingTime
      ∧ (tick (c, ac, none) (p, some e) now x).tracker.totalEnergyWh = x.tracker.totalEnergyWh
      ∧ (tick (c, ac, none) (p, some e) now x).tracker.totalCurrentAh = x.tracker.totalCurrentAh
      ∧ (tick (c, ac, none) (p, some e) now x).tracker.lastReadingTime
          = x.tracker.lastReadingTime :=
  ⟨rfl, rfl, rfl, rfl, rfl, rfl, rfl, rfl⟩

/-! ## Reset -/

/-- When the reset has returned before the tick reads `lastReadingTime`: the reset
at instant `r` leaves both totals at zero and `lastReadingTime = r`, and a
successful tick at instant `t` with power `p` and current `c` then leaves
`totalEnergyWh = p * (t - r)` and `totalCurrentAh = c * (t - r)`, the gap taken in
hours. -/
theorem reset_then_tick_serial (x : Exec) (r t : Time) (p c : ℚ) (ac : Bool) :
    (DoCommand (some [("reset", Value.bool true)]) r x).2.tracker.totalEnergyWh = 0
      ∧ (DoCommand (some [("reset", Value.bool true)]) r x).2.tracker.totalCurrentAh = 0
      ∧ (DoCommand (some [("reset", Value.bool true)]) r x).2.tracker.lastReadingTime = r
      ∧ (tick (c, ac, none) (p, none) t
            (DoCommand (some [("reset", Value.bool true)]) r x).2).tracker.totalEnergyWh
          = p * (((t - r : Int) : ℚ) / 3600000000000)
      ∧ (tick (c, ac, none) (p, none) t
            (DoCommand (some [("reset", Value.bool true)]) r x).2).tracker.totalCurrentAh
          = c * (((t - r : Int) : ℚ) / 3600000000000)
      ∧ (tick (c, ac, none) (p, none) t
            (DoCommand (some [("reset", Value.bool true)]) r x).2).tracker.lastReadingTime
          = t := by
  have hd : (DoCommand (some [("reset", Value.bool true)]) r x).2.tracker
      = { x.tracker with totalEnergyWh := 0, totalCurrentAh := 0, lastReadingTime := r } := by
    simp [DoCommand, GoMap.index, Entries.find, muLock, muUnlock, setTotalEnergyWh,
      setTotalCurrentAh, setLastReadingTime]
  refine ⟨by rw [hd], by rw [hd], by rw [hd], ?_, ?_, ?_⟩
  · rw [tick_ok_tracker, hd]; simp [Hours, Sub]
  · rw [tick_ok_tracker, hd]; simp [Hours, Sub]
  · rw [tick_ok_tracker]

/-- C3 (code evaluated at the failing input): a reset at 2 h overlapping a tick
at 2 h + 1 s, on a tracker last sampled at 1 h. The tick reads `lastReadingTime`
before taking the mutex, while the reset holds it and has not yet stored its own
instant; the tick's update, made after the reset has returned, integrates from 1 h:
`totalEnergyWh` is `3601/360` where `p * (t - r)` is `1/360`, and `totalCurrentAh`
is `3601/1800` where `c * (t - r)` is `1/1800`. The interleaving respects the
mutex. For every tracker, instants and readings the overlapped tick integrates
from the `lastReadingTime` that preceded the reset. -/
theorem reset_overlapping_tick_integrates_from_before :
    tickSample (2, false, none) (10, none) 7201000000000
        = some { current := 2, power := 10, now := 7201000000000 }
      ∧ (resetOverlappingTick 7200000000000 { current := 2, power := 10, now := 7201000000000 }
          exampleUsed).tracker.totalEnergyWh = 3601 / 360
      ∧ (10 : ℚ) * (((7201000000000 - 7200000000000 : Int) : ℚ) / 3600000000000) = 1 / 360
      ∧ (resetOverlappingTick 7200000000000 { current := 2, power := 10, now := 7201000000000 }
          exampleUsed).tracker.totalCurrentAh = 3601 / 1800
      ∧ (2 : ℚ) * (((7201000000000 - 7200000000000 : Int) : ℚ) / 3600000000000) = 1 / 1800
      ∧ (resetOverlappingTick 7200000000000 { current := 2, power := 10, now := 7201000000000 }
          exampleUsed).trace
        = [Access.lock, Access.write Field.totalEnergyWh, Access.write Field.totalCurrentAh,
            Access.read Field.lastReadingTime,
            Access.write Field.lastReadingTime, Access.unlock,
            Access.lock, Access.read Field.totalEnergyWh, Access.write Field.totalEnergyWh,
            Access.read Field.totalCurrentAh, Access.write Field.totalCurrentAh,
            Access.write Field.lastReadingTime, Access.unlock]
      ∧ mutexOk false
          (resetOverlappingTick 7200000000000 { current := 2, power := 10, now := 7201000000000 }
            exampleUsed).trace = true
      ∧ (∀ (x : Exec) (r : Time) (p : Pending),
          (resetOverlappingTick r p x).tracker.totalEnergyWh
              = p.power * (((p.now - x.tracker.lastReadingTime : Int) : ℚ) / 3600000000000)
            ∧ (resetOverlappingTick r p x).tracker.totalCurrentAh
              = p.current * (((p.now - x.tracker.lastReadingTime : Int) : ℚ) / 3600000000000)) := by
  refine ⟨rfl, ?_, by norm_num, ?_, by norm_num, rfl, rfl, ?_⟩
  · simp [resetOverlappingTick, resetZero, resetStamp, tickElapsed, tickUpdate, muLock, muUnlock,
      getLastReadingTime, getTotalEnergyWh, getTotalCurrentAh, setTotalEnergyWh,
      setTotalCurrentAh, setLastReadingTime, exampleUsed, Hours, Sub]
    norm_num
  · simp [resetOverlappingTick, resetZero, resetStamp, tickElapsed, tickUpdate, muLock, muUnlock,
      getLastReadingTime, getTotalEnergyWh, getTotalCurrentAh, setTotalEnergyWh,
      setTotalCurrentAh, setLastReadingTime, exampleUsed, Hours, Sub]
    norm_num
  · intro x r p
    simp [resetOverlappingTick, resetZero, resetStamp, tickElapsed, tickUpdate, muLock, muUnlock,
      getLastReadingTime, getTotalEnergyWh, getTotalCurrentAh, setTotalEnergyWh,
      setTotalCurrentAh, setLastReadingTime, Hours, Sub]

/-- C4: `DoCommand` returns `{"status": "success"}` and no error exactly when the
command map binds `"reset"` to the boolean `true`; for every other map it returns
the nil map and no error and leaves the tracker and its trace as they were. The
listed shapes (nil map, empty map, `reset` false, `reset` a string or a number, no
`reset` key) all fall in the second case. -/
theorem DoCommand_result (cmd : GoMap) (now : Time) (x : Exec) :
    (DoCommand cmd now x).1 =
        (if GoMap.index cmd "reset" = some (Value.bool true)
          then (some [("status", Value.str "success")], none) else (none, none))
      ∧ (GoMap.index cmd "reset" ≠ some (Value.bool true) → (DoCommand cmd now x).2 = x)
      ∧ DoCommand none now x = ((none, none), x)
      ∧ DoCommand (some []) now x = ((none, none), x)
      ∧ DoCommand (some [("reset", Value.bool false)]) now x = ((none, none), x)
      ∧ DoCommand (some [("reset", Value.str "true")]) now x = ((none, none), x)
      ∧ DoCommand (some [("reset", Value.int 1)]) now x = ((none, none), x)
      ∧ DoCommand (some [("reset", Value.float 1)]) now x = ((none, none), x)
      ∧ DoCommand (some [("Reset", Value.bool true)]) now x = ((none, none), x) := by
  refine ⟨?_, ?_, rfl, rfl, ?_, ?_, ?_, ?_, ?_⟩
  · unfold DoCommand
    split
    · next h => simp [h]
    · next h =>
      have h2 : GoMap.index cmd "reset" ≠ some (Value.bool true) := fun hc => h hc
      simp [h2]
  · intro hne
    unfold DoCommand
    split
    · next h => exact absurd h hne
    · rfl
  all_goals simp [DoCommand, GoMap.index, Entries.find]

/-- C4 at a concrete input: `reset` bound to the string `"true"`. -/
theorem DoCommand_result_witness :
    GoMap.index (some [("reset", Value.str "true")]) "reset" ≠ some (Value.bool true)
      ∧ (DoCommand (some [("reset", Value.str "true")]) 5 exampleUsed).2 = exampleUsed :=
  ⟨by decide,
   (DoCommand_result (some [("reset", Value.str "true")]) 5 exampleUsed).2.1 (by decide)⟩

/-! ## Readings -/

/-- C5 (code evaluated at the failing input): when the upstream `Readings` call
succeeds with the nil map, `Readings` does not return a map: the assignment of
`"total_energy_Wh"` panics, after the unlocked read of `totalEnergyWh`. -/
theorem Readings_nil_upstream_panics :
    (Readings (none, none) exampleUsed).1 = Outcome.panicked "assignment to entry in nil map"
      ∧ (Readings (none, none) exampleUsed).2.trace = [Access.read Field.totalEnergyWh]
      ∧ ∀ x : Exec, (Readings (none, none) x).1
          = Outcome.panicked "assignment to entry in nil map" :=
  ⟨rfl, rfl, fun _ => rfl⟩

/-- On the other upstream outcomes `Readings` does what is expected of it: if the
upstream call fails, it returns that error and the nil map; if the call succeeds
with a non-nil map, `Readings` succeeds with a map in which
`"total_energy_Wh"` and `"total_current_Ah"` hold the current totals (the
accumulator wins a key collision), every other key reads as upstream, and the key
set is the upstream key set plus those two keys; the tracker is not modified. -/
theorem Readings_merges_totals (x : Exec) (es : Entries) (m : GoMap) (e : Err) :
    Readings (m, some e) x = (Outcome.ret (none, some e), x)
      ∧ ∃ out : Entries,
        (Readings (some es, none) x).1 = Outcome.ret (some out, none)
          ∧ (Readings (some es, none) x).2.tracker = x.tracker
          ∧ (∀ k : String, GoMap.index (some out) k =
              if k = "total_energy_Wh" then some (Value.float x.tracker.totalEnergyWh)
              else if k = "total_current_Ah" then some (Value.float x.tracker.totalCurrentAh)
              else GoMap.index (some es) k)
          ∧ (∀ k : String, GoMap.hasKey (some out) k = true ↔
              (GoMap.hasKey (some es) k = true ∨ k = "total_energy_Wh"
                ∨ k = "total_current_Ah")) := by
  refine ⟨rfl, _, rfl, rfl, ?_, ?_⟩
  · intro k
    simp only [GoMap.index, getTotalEnergyWh, getTotalCurrentAh]
    rw [Entries.find_assign "total_current_Ah", Entries.find_assign "total_energy_Wh"]
    by_cases h1 : k = "total_energy_Wh"
    · simp [h1]
    · simp [h1]
  · intro k
    simp only [GoMap.hasKey, GoMap.index, getTotalEnergyWh, getTotalCurrentAh]
    rw [Entries.find_assign "total_current_Ah", Entries.find_assign "total_energy_Wh"]
    by_cases h1 : k = "total_energy_Wh"
    · simp [h1]
    · by_cases h2 : k = "total_current_Ah"
      · simp [h2]
      · simp [h1, h2]

/-! ## Construction and configuration -/

/-- C6: when `source_sensor` resolves in the dependency set to a power sensor,
`NewEnergyTracker` fails with the configuration error for a negative
`refresh_rate_msec`, and otherwise succeeds with a tracker whose totals are zero,
whose `lastReadingTime` is the construction instant and whose refresh rate is 2000
for `refresh_rate_msec = 0` and `refresh_rate_msec` itself when positive. -/
theorem NewEnergyTracker_refresh_rate (deps : Dependencies) (name : String) (conf : Config)
    (now : Time) (r : Resource) (id : String)
    (hL : Dependencies.Lookup deps conf.SourceSensor = some r)
    (hP : Resource.asPowerSensor r = some id) :
    (NewEnergyTracker deps name conf now).1 =
      if conf.RefreshRateMSec < 0 then
        Except.error (Err.errorf "refresh_rate_msec must be greater than 0")
      else
        Except.ok
          { name := name
            sourceSensor := id
            refreshRateMSec := if conf.RefreshRateMSec = 0 then 2000 else conf.RefreshRateMSec
            lastReadingTime := now
            totalEnergyWh := 0
            totalCurrentAh := 0 } := by
  simp only [NewEnergyTracker, hL, hP]
  by_cases hneg : conf.RefreshRateMSec < 0
  · simp [hneg]
  · by_cases hz : conf.RefreshRateMSec = 0
    · simp [hz]
    · simp [hneg, hz]

/-- C6 at a concrete input: `refresh_rate_msec = 0` becomes a 2000 ms refresh rate. -/
theorem NewEnergyTracker_refresh_rate_witness :
    Dependencies.Lookup exampleDeps "src" = some (Resource.powerSensor "src")
      ∧ Resource.asPowerSensor (Resource.powerSensor "src") = some "src"
      ∧ (NewEnergyTracker exampleDeps "tracker" { RefreshRateMSec := 0, SourceSensor := "src" } 7).1
          = Except.ok
              { name := "tracker", sourceSensor := "src", refreshRateMSec := 2000,
                lastReadingTime := 7, totalEnergyWh := 0, totalCurrentAh := 0 } :=
  ⟨by decide, by decide,
   NewEnergyTracker_refresh_rate exampleDeps "tracker"
     { RefreshRateMSec := 0, SourceSensor := "src" } 7 (Resource.powerSensor "src") "src"
     (by decide) (by decide)⟩

/-- C7 (code evaluated at the failing input): `Validate` returns no error for the
configuration with `refresh_rate_msec = -5`, and indeed for every configuration;
its result is always the one-element list holding `source_sensor`. -/
theorem Validate_accepts_negative_refresh_rate :
    Config.Validate { RefreshRateMSec := -5, SourceSensor := "src" } "components.0"
        = (["src"], none)
      ∧ ∀ (cfg : Config) (path : String), Config.Validate cfg path = ([cfg.SourceSensor], none) :=
  ⟨rfl, fun _ _ => rfl⟩

/-- C10 (as stated, refuted): constructing from a configuration with
`refresh_rate_msec = 0` leaves 2000 in the configuration's `refresh_rate_msec`. -/
theorem NewEnergyTracker_overwrites_zero_refresh_rate :
    (NewEnergyTracker exampleDeps "tracker"
        { RefreshRateMSec := 0, SourceSensor := "src" } 7).2.RefreshRateMSec = 2000
      ∧ (NewEnergyTracker exampleDeps "tracker"
        { RefreshRateMSec := 0, SourceSensor := "src" } 7).2
          ≠ { RefreshRateMSec := 0, SourceSensor := "src" } := by
  constructor
  · rfl
  · decide

/-- C10 (amended): `NewEnergyTracker` never changes the configuration's
`source_sensor`, and leaves `refresh_rate_msec` as it was except when construction
succeeds on a configuration with `refresh_rate_msec = 0`, in which case the field
holds 2000 afterwards; in particular a failed construction changes nothing. -/
theorem NewEnergyTracker_config_after (deps : Dependencies) (name : String) (conf : Config)
    (now : Time) :
    (NewEnergyTracker deps name conf now).2.SourceSensor = conf.SourceSensor
      ∧ (NewEnergyTracker deps name conf now).2.RefreshRateMSec =
          (if conf.RefreshRateMSec = 0 ∧ (NewEnergyTracker deps name conf now).1.toBool = true
            then 2000 else conf.RefreshRateMSec) := by
  simp only [NewEnergyTracker]
  cases hL : Dependencies.Lookup deps conf.SourceSensor with
  | none => simp [Except.toBool]
  | some r =>
    cases hP : Resource.asPowerSensor r with
    | none => simp [hP, Except.toBool]
    | some ps =>
      by_cases hneg : conf.RefreshRateMSec < 0
      · simp [hP, hneg, Except.toBool]
      · by_cases hz : conf.RefreshRateMSec = 0
        · simp [hP, hz, Except.toBool]
        · simp [hP, hneg, hz, Except.toBool]

/-! ## Lock discipline -/

/-- C8 (code evaluated at the failing inputs): `Readings` reads both totals without
taking the mutex, and a successful tick reads `lastReadingTime` before taking it;
only the reset path performs all of its accesses between `Lock` and `Unlock`. -/
theorem shared_fields_accessed_without_lock :
    (Readings (some [], none) exampleUsed).2.trace
        = [Access.read Field.totalEnergyWh, Access.read Field.totalCurrentAh]
      ∧ guardedFrom false (Readings (some [], none) exampleUsed).2.trace = false
      ∧ (tick (2, false, none) (10, none) 7200000000000 exampleUsed).trace
        = [Access.read Field.lastReadingTime, Access.lock,
            Access.read Field.totalEnergyWh, Access.write Field.totalEnergyWh,
            Access.read Field.totalCurrentAh, Access.write Field.totalCurrentAh,
            Access.write Field.lastReadingTime, Access.unlock]
      ∧ guardedFrom false
          (tick (2, false, none) (10, none) 7200000000000 exampleUsed).trace = false
      ∧ (DoCommand (some [("reset", Value.bool true)]) 7200000000000 exampleUsed).2.trace
        = [Access.lock, Access.write Field.totalEnergyWh, Access.write Field.totalCurrentAh,
            Access.write Field.lastReadingTime, Access.unlock]
      ∧ guardedFrom false
          (DoCommand (some [("reset", Value.bool true)]) 7200000000000 exampleUsed).2.trace
          = true
      ∧ (∀ (tr : Tracker) (es : Entries),
          guardedFrom false (Readings (some es, none) { tracker := tr, trace := [] }).2.trace
            = false)
      ∧ (∀ (tr : Tracker) (c p : ℚ) (ac : Bool) (now : Time),
          guardedFrom false (tick (c, ac, none) (p, none) now { tracker := tr, trace := [] }).trace
            = false) :=
  ⟨rfl, rfl, rfl, rfl, rfl, rfl, fun _ _ => rfl, fun _ _ _ _ _ => rfl⟩

/-! ## Monotonicity -/

/-- C9 (code evaluated at the failing input): a tick with power 10 and current 2
evaluates `time.Now()` at 2 h; a reset, whose `time.Now()` gives 2 h + 1 s, runs to
completion; the tick then reads `lastReadingTime` and updates. The clock readings
are non-decreasing and both upstream readings are non-negative, yet
`totalEnergyWh` ends at `-1/360` and `totalCurrentAh` at `-1/1800`, and
`lastReadingTime` goes back from 2 h + 1 s to 2 h. The interleaving respects the
mutex. -/
theorem reset_inside_tick_breaks_monotonicity :
    tickSample (2, false, none) (10, none) 7200000000000
        = some { current := 2, power := 10, now := 7200000000000 }
      ∧ (DoCommand (some [("reset", Value.bool true)]) 7201000000000
          exampleUsed).2.tracker.lastReadingTime = 7201000000000
      ∧ (DoCommand (some [("reset", Value.bool true)]) 7201000000000
          exampleUsed).2.tracker.totalEnergyWh = 0
      ∧ (resetInsideTick { current := 2, power := 10, now := 7200000000000 } 7201000000000
          exampleUsed).tracker.totalEnergyWh = -1 / 360
      ∧ (resetInsideTick { current := 2, power := 10, now := 7200000000000 } 7201000000000
          exampleUsed).tracker.totalCurrentAh = -1 / 1800
      ∧ (resetInsideTick { current := 2, power := 10, now := 7200000000000 } 7201000000000
          exampleUsed).tracker.lastReadingTime = 7200000000000
      ∧ (resetInsideTick { current := 2, power := 10, now := 7200000000000 } 7201000000000
          exampleUsed).tracker.totalEnergyWh < 0
      ∧ (resetInsideTick { current := 2, power := 10, now := 7200000000000 } 7201000000000
          exampleUsed).tracker.lastReadingTime
          < (DoCommand (some [("reset", Value.bool true)]) 7201000000000
              exampleUsed).2.tracker.lastReadingTime
      ∧ mutexOk false
          (resetInsideTick { current := 2, power := 10, now := 7200000000000 } 7201000000000
            exampleUsed).trace = true := by
  have hE : (resetInsideTick { current := 2, power := 10, now := 7200000000000 } 7201000000000
      exampleUsed).tracker.totalEnergyWh = -1 / 360 := by
    simp [resetInsideTick, DoCommand, GoMap.index, Entries.find, tickElapsed, tickUpdate, muLock,
      muUnlock, getLastReadingTime, getTotalEnergyWh, getTotalCurrentAh, setTotalEnergyWh,
      setTotalCurrentAh, setLastReadingTime, exampleUsed, Hours, Sub]
    norm_num
  have hA : (resetInsideTick { current := 2, power := 10, now := 7200000000000 } 7201000000000
      exampleUsed).tracker.totalCurrentAh = -1 / 1800 := by
    simp [resetInsideTick, DoCommand, GoMap.index, Entries.find, tickElapsed, tickUpdate, muLock,
      muUnlock, getLastReadingTime, getTotalEnergyWh, getTotalCurrentAh, setTotalEnergyWh,
      setTotalCurrentAh, setLastReadingTime, exampleUsed, Hours, Sub]
    norm_num
  refine ⟨rfl, rfl, rfl, hE, hA, rfl, ?_, by decide, rfl⟩
  rw [hE]; norm_num

end PowerUsageTracker
